import Mathlib

/-!
Verification development for the `babylonjs-5-galaxy` demo renderer.

The definitions below are a shallow embedding of the renderer's own logic
(`src/Renderer.ts`): the distance-to-percentage clamp helper, the per-planet
orbital phase stepper, the pointer-interaction state machine installed by
`initJumpToCameraPosition`, the render-loop callback dispatch, and the
`solarBodies` list built by `initPlanets`.  Real-valued quantities that the
code manipulates with plain arithmetic are embedded over `ℚ` where exact and
executable, and over `ℝ` where the code uses trigonometry (`Math.cos`,
`Math.sin`, `Math.PI`).  Meshes are identified by natural-number identities,
standing for JavaScript object identity (`===`).
-/

namespace Galaxy

/-- Modelled from the spec: the repository imports `clamp` from
`src/Utils/Math.ts`, which is not among the provided sources.  The spec's
contract for the helper is `clamp((value-start)/(end-start), 0, 1)`, i.e. the
standard clamping of a value into the closed interval `[lo, hi]`. -/
def clamp (value lo hi : ℚ) : ℚ := min (max value lo) hi

/-- `Renderer.getDistanceRangePercentage` (Renderer.ts): computes
`diffDist = endDist - startDist`, `currentPos = (distance - startDist) / diffDist`,
and returns `clamp(currentPos, 0, 1)`. -/
def getDistanceRangePercentage (startDist endDist distance : ℚ) : ℚ :=
  let diffDist := endDist - startDist
  let currentPos := (distance - startDist) / diffDist
  clamp currentPos 0 1

/-- Division made total by returning `none` on a zero divisor; used for the
variant of the helper in which the unguarded division step is made explicit. -/
def divOpt (a b : ℚ) : Option ℚ := if b = 0 then none else some (a / b)

/-- `Renderer.getDistanceRangePercentage` with the division step embedded as a
total `Option`-valued division: the source divides `(distance - startDist)` by
`diffDist` with no guard against `diffDist = 0`. -/
def getDistanceRangePercentageOpt (startDist endDist distance : ℚ) : Option ℚ :=
  let diffDist := endDist - startDist
  (divOpt (distance - startDist) diffDist).map (fun currentPos => clamp currentPos 0 1)

/-! Orbital phase stepper, from `Renderer.registerPlanetOrbitRotation`.
Each planet's callback keeps three phase accumulators (`currentCosPi`,
`currentSinPi`, `currentTiltPi`); every tick adds the same
`animationPiStep = piStep * animationRatio` to all three and then writes the
planet position from the new phases, the cached `distanceVectorLength`, and
the sun mesh's position as read at that moment. -/

structure OrbitState where
  currentCosPi : ℝ
  currentSinPi : ℝ
  currentTiltPi : ℝ

/-- Source: `const fullRotationsPerSecond = 0.001;`. -/
noncomputable def fullRotationsPerSecond : ℝ := 0.001

/-- Source: `const piStep = ((Math.PI * 2) / 60) * fullRotationsPerSecond;`. -/
noncomputable def piStep : ℝ := Real.pi * 2 / 60 * fullRotationsPerSecond

/-- Source: `const animationPiStep = piStep * animationRatio;`. -/
noncomputable def animationPiStep (animationRatio : ℝ) : ℝ := piStep * animationRatio

/-- One tick of the orbit callback on the phase accumulators: all three advance
by `animationPiStep animationRatio`. -/
noncomputable def orbitTick (animationRatio : ℝ) (st : OrbitState) : OrbitState :=
  { currentCosPi := st.currentCosPi + animationPiStep animationRatio
    currentSinPi := st.currentSinPi + animationPiStep animationRatio
    currentTiltPi := st.currentTiltPi + animationPiStep animationRatio }

/-- The position a tick writes to the planet mesh, from the phase accumulators
after the advance, the cached `distanceVectorLength`, and the sun position read
at write time: `x = cos(currentCosPi)*len + sun.x`, `y = sin(currentTiltPi)*len + sun.y`,
`z = sin(currentSinPi)*len + sun.z`. -/
noncomputable def orbitWrittenPos (sunPos : ℝ × ℝ × ℝ) (distanceVectorLength : ℝ)
    (st : OrbitState) : ℝ × ℝ × ℝ :=
  (Real.cos st.currentCosPi * distanceVectorLength + sunPos.1,
   Real.sin st.currentTiltPi * distanceVectorLength + sunPos.2.1,
   Real.sin st.currentSinPi * distanceVectorLength + sunPos.2.2)

/-! The `solarBodies` list, from `Renderer.initPlanets`: one `PlanetMeta` entry
is pushed per entry of `solarBodyConfigs`, in order, holding the created mesh,
the config's type tag and its friendly name. -/

inductive BodyType
  | star
  | planet
deriving DecidableEq

/-- An entry of `Renderer.solarBodies` (`interface PlanetMeta`): the mesh is
modelled by its identity. -/
structure PlanetMeta where
  mesh : ℕ
  type : BodyType
  name : String
deriving DecidableEq

/-- The part of `SolarBodyConfig` that flows into `solarBodies`. -/
structure SolarBodyConfig where
  type : BodyType
  inspectorName : String
  friendlyName : String

/-- The six configs of `initPlanets`, in declaration order. -/
def solarBodyConfigs : List SolarBodyConfig :=
  [⟨.star, "sun", "Sun"⟩,
   ⟨.planet, "planet1", "Penuaturn"⟩,
   ⟨.planet, "planet2", "Unradus"⟩,
   ⟨.planet, "planet3", "Lyke GS"⟩,
   ⟨.planet, "planet4", "Vore 0MI"⟩,
   ⟨.planet, "planet5", "Stan"⟩]

/-- `initPlanets` iterates over `solarBodyConfigs`, creating one sphere mesh per
config (a fresh mesh identity: its index) and pushing
`{mesh, type: config.type, name: config.friendlyName}` onto `solarBodies`. -/
def initSolarBodies : List PlanetMeta :=
  solarBodyConfigs.enum.map fun ic =>
    { mesh := ic.1, type := ic.2.type, name := ic.2.friendlyName }

/-! Pointer-interaction state machine, from `Renderer.initJumpToCameraPosition`.
The closure state is `pointerDown` and `bodyMesh`; the renderer field
`currentlyFocusedPlanet` holds `null`, `undefined`, or a reference to a
`solarBodies` entry (modelled by its index, since entries are distinct objects
and the comparison in the source is JavaScript `===`). -/

inductive FocusRef
  | jsNull
  | jsUndefined
  | body (i : ℕ)
deriving DecidableEq

/-- The renderer state the pointer handlers read and write. -/
structure RendererState where
  solarBodies : List PlanetMeta
  currentlyFocusedPlanet : FocusRef
  pointerDown : Bool
  bodyMesh : Option ℕ
deriving DecidableEq

/-- Mesh resolution shared by the down and up handlers: take
`pickingInfo.pickedMesh` if present; otherwise, when `pickingInfo.hit` is
false, fall back to a manual `scene.pick` (whose result is `fallbackPick`),
and bail out (`none`) when that also finds nothing or when `hit` is true. -/
def resolvePick (pickedMesh : Option ℕ) (hit : Bool) (fallbackPick : Option ℕ) : Option ℕ :=
  match pickedMesh with
  | some m => some m
  | none => if hit then none else fallbackPick

/-- `this.solarBodies.filter(solarBody => solarBody.mesh === mesh)[0]`: the
first entry owning the mesh, or JavaScript `undefined` when there is none. -/
def correspondingSolarBody (bodies : List PlanetMeta) (mesh : ℕ) : FocusRef :=
  match bodies.findIdx? (fun solarBody => solarBody.mesh = mesh) with
  | some i => .body i
  | none => .jsUndefined

/-- Observable effects of one run of the `onPointerUp` handler. -/
structure UpEffects where
  /-- The mesh that passed the `bodyMesh === mesh` confirmation check. -/
  confirmedMesh : Option ℕ
  /-- Whether the `cameraZoomToLocalSystem` radius animation was started. -/
  zoomAnim : Bool
  /-- How many `cameraMove*` (target/radius/alpha/beta) animations were started. -/
  cameraMoveAnims : ℕ
  /-- Whether `this.currentlyFocusedPlanet` was assigned. -/
  focusChanged : Bool
  /-- Whether `solarSystemTransformNode.setPivotPoint` was called. -/
  pivotSet : Bool
  /-- Whether the explore camera was reparented and its radius resized. -/
  exploreCamMoved : Bool
deriving DecidableEq

/-- The empty effect record: the handler returned without doing anything. -/
def noUpEffects : UpEffects :=
  { confirmedMesh := none, zoomAnim := false, cameraMoveAnims := 0,
    focusChanged := false, pivotSet := false, exploreCamMoved := false }

/-- `scene.onPointerDown`: set `pointerDown`, then resolve the picked mesh; on
success store it in `bodyMesh`, otherwise return early (leaving `bodyMesh` as
it was). -/
def onPointerDown (st : RendererState) (pickedMesh : Option ℕ) (hit : Bool)
    (fallbackPick : Option ℕ) : RendererState :=
  let st1 := { st with pointerDown := true }
  match resolvePick pickedMesh hit fallbackPick with
  | some m => { st1 with bodyMesh := some m }
  | none => st1

/-- `scene.onPointerMove`: while the pointer is down, clear `bodyMesh` (and
kill the pending animations). -/
def onPointerMove (st : RendererState) : RendererState :=
  if st.pointerDown then { st with bodyMesh := none } else st

/-- The per-event inputs of the `onPointerUp` handler: the picking info (which
may itself be `null`), the manual-pick fallback, the results of the two
`scaling.equalsWithEpsilon(Vector3.One(), 0.01)` checks (one before the
optional zoom `await`, one at the pivot guard), and whether the confirmed
mesh's layer mask intersects the explore camera's. -/
structure UpInput where
  pickingInfo : Option (Option ℕ × Bool)
  fallbackPick : Option ℕ
  scalingIsOneAtZoomCheck : Bool
  scalingIsOneAtPivotCheck : Bool
  meshInExploreLayer : Bool
deriving DecidableEq

/-- The mesh the up handler resolves, `none` on any early return. -/
def upResolve (inp : UpInput) : Option ℕ :=
  match inp.pickingInfo with
  | none => none
  | some (pickedMesh, hit) => resolvePick pickedMesh hit inp.fallbackPick

/-- `scene.onPointerUp`: clear `pointerDown`; bail out when `pickingInfo` is
null, when no mesh resolves, or when the resolved mesh is not identical to the
stored `bodyMesh`.  Otherwise: when not at unit scaling, run the zoom-to-local
animation; look up the owning solar body; if it is already
`currentlyFocusedPlanet`, return; else assign the focus, start the four
`cameraMove` animations, set the pivot point when at unit scaling, and move the
explore camera when the mesh is on its layer. -/
def onPointerUp (st : RendererState) (inp : UpInput) : RendererState × UpEffects :=
  let st1 := { st with pointerDown := false }
  match upResolve inp with
  | none => (st1, noUpEffects)
  | some mesh =>
    if st.bodyMesh = some mesh then
      let zoom := !inp.scalingIsOneAtZoomCheck
      let corresponding := correspondingSolarBody st.solarBodies mesh
      if st.currentlyFocusedPlanet = corresponding then
        (st1, { noUpEffects with confirmedMesh := some mesh, zoomAnim := zoom })
      else
        ({ st1 with currentlyFocusedPlanet := corresponding },
         { confirmedMesh := some mesh, zoomAnim := zoom, cameraMoveAnims := 4,
           focusChanged := true, pivotSet := inp.scalingIsOneAtPivotCheck,
           exploreCamMoved := inp.meshInExploreLayer })
    else (st1, noUpEffects)

/-- A pointer event, with the engine-supplied picking data as payload. -/
inductive PointerEvent
  | down (pickedMesh : Option ℕ) (hit : Bool) (fallbackPick : Option ℕ)
  | move
  | up (inp : UpInput)
deriving DecidableEq

/-- Dispatch one pointer event to its handler. -/
def pointerStep (st : RendererState) : PointerEvent → RendererState × UpEffects
  | .down pickedMesh hit fallbackPick => (onPointerDown st pickedMesh hit fallbackPick, noUpEffects)
  | .move => (onPointerMove st, noUpEffects)
  | .up inp => onPointerUp st inp

/-- Run a sequence of pointer events. -/
def runPointer (st : RendererState) : List PointerEvent → RendererState
  | [] => st
  | e :: es => runPointer (pointerStep st e).1 es

/-- The renderer state right after `initScene`: `solarBodies` as built by
`initPlanets`, focus on the first planet-typed entry (index 1), pointer up,
no stored mesh. -/
def initRendererState : RendererState :=
  { solarBodies := initSolarBodies, currentlyFocusedPlanet := .body 1,
    pointerDown := false, bodyMesh := none }

/-- The focus-follow tick callback registered in `initScene`: return early when
`currentlyFocusedPlanet` is falsy (null or undefined) or when the transform
node's scaling is not within epsilon 0.01 of `Vector3.One()` (galaxy mode);
otherwise retarget the camera and, under the same scaling check, set the pivot
point.  The returned boolean says whether `setPivotPoint` was called. -/
def focusFollowTickPivot (focus : FocusRef) (scalingIsOne : Bool) : Bool :=
  match focus with
  | .jsNull => false
  | .jsUndefined => false
  | .body _ =>
    if !scalingIsOne then false
    else if scalingIsOne then true else false

/-! Render loop, from the `Renderer` constructor: each iteration samples
`delta = engine.getDeltaTime()` and `animationRatio = scene.getAnimationRatio()`
once, runs `onTickCallbacks.forEach(cb => cb(delta, animationRatio))`, and then
calls `scene.render()`.  Callbacks are identified by their identity. -/

inductive FrameAction
  | invoke (callback : ℕ) (delta animationRatio : ℚ)
  | render
deriving DecidableEq

/-- The action trace of one render-loop iteration. -/
def renderLoopFrame (onTickCallbacks : List ℕ) (getDeltaTime getAnimationRatio : ℚ) :
    List FrameAction :=
  let delta := getDeltaTime
  let animationRatio := getAnimationRatio
  let invocations := onTickCallbacks.foldl
    (fun trace cb => trace ++ [FrameAction.invoke cb delta animationRatio]) []
  invocations ++ [FrameAction.render]

/-! Theorems. -/

/-- C1: for `startDist ≠ endDist`, `getDistanceRangePercentage` returns exactly
`clamp((distance - startDist) / (endDist - startDist), 0, 1)`. -/
theorem getDistanceRangePercentage_eq_clamp (startDist endDist distance : ℚ)
    (_h : startDist ≠ endDist) :
    getDistanceRangePercentage startDist endDist distance =
      clamp ((distance - startDist) / (endDist - startDist)) 0 1 := rfl

/-- Witness for C1 at `startDist = 0`, `endDist = 2`, `distance = 1`. -/
theorem getDistanceRangePercentage_eq_clamp_witness :
    (0 : ℚ) ≠ 2 ∧
      getDistanceRangePercentage 0 2 1 = clamp ((1 - 0) / (2 - 0)) 0 1 :=
  ⟨by decide, getDistanceRangePercentage_eq_clamp 0 2 1 (by decide)⟩

/-- C2: for `startDist < endDist` the helper stays in `[0,1]`, is `0` at or
below `startDist`, is `1` at or beyond `endDist`, and is monotonically
non-decreasing in `distance`. -/
theorem getDistanceRangePercentage_range_props (startDist endDist : ℚ)
    (h : startDist < endDist) :
    (∀ distance, 0 ≤ getDistanceRangePercentage startDist endDist distance ∧
        getDistanceRangePercentage startDist endDist distance ≤ 1) ∧
    (∀ distance, distance ≤ startDist →
        getDistanceRangePercentage startDist endDist distance = 0) ∧
    (∀ distance, endDist ≤ distance →
        getDistanceRangePercentage startDist endDist distance = 1) ∧
    (∀ d1 d2, d1 ≤ d2 →
        getDistanceRangePercentage startDist endDist d1 ≤
          getDistanceRangePercentage startDist endDist d2) := by
  have hpos : 0 < endDist - startDist := by linarith
  refine ⟨?_, ?_, ?_, ?_⟩
  · intro distance
    unfold getDistanceRangePercentage clamp
    constructor
    · exact le_min (le_max_right _ _) (by norm_num)
    · exact min_le_right _ _
  · intro distance hd
    unfold getDistanceRangePercentage clamp
    have hnum : distance - startDist ≤ 0 := by linarith
    have hq : (distance - startDist) / (endDist - startDist) ≤ 0 :=
      div_nonpos_of_nonpos_of_nonneg hnum (le_of_lt hpos)
    simp only [max_eq_right hq]
    norm_num
  · intro distance hd
    unfold getDistanceRangePercentage clamp
    have hq : (1 : ℚ) ≤ (distance - startDist) / (endDist - startDist) := by
      rw [le_div_iff₀ hpos]
      linarith
    have hmax : (1 : ℚ) ≤ max ((distance - startDist) / (endDist - startDist)) 0 :=
      le_trans hq (le_max_left _ _)
    exact min_eq_right hmax
  · intro d1 d2 hd
    unfold getDistanceRangePercentage clamp
    have hq : (d1 - startDist) / (endDist - startDist) ≤
        (d2 - startDist) / (endDist - startDist) :=
      (div_le_div_iff_of_pos_right hpos).mpr (by linarith)
    exact min_le_min (max_le_max hq le_rfl) le_rfl

/-- Witness for C2 at `startDist = 0`, `endDist = 2`, sampled at `1`, `-1`, `3`. -/
theorem getDistanceRangePercentage_range_props_witness :
    (0 : ℚ) < 2 ∧
      (0 ≤ getDistanceRangePercentage 0 2 1 ∧ getDistanceRangePercentage 0 2 1 ≤ 1) ∧
      getDistanceRangePercentage 0 2 (-1) = 0 ∧
      getDistanceRangePercentage 0 2 3 = 1 ∧
      getDistanceRangePercentage 0 2 1 ≤ getDistanceRangePercentage 0 2 (3/2) := by
  have h := getDistanceRangePercentage_range_props 0 2 (by decide)
  exact ⟨by decide, h.1 1, h.2.1 (-1) (by decide), h.2.2.1 3 (by decide),
    h.2.2.2 1 (3/2) (by norm_num)⟩

/-- C3: when `startDist = endDist` the division step of
`getDistanceRangePercentage` divides by zero: in the total embedding where the
division returns an `Option`, the helper yields `none` (there is no guard and
no raised error in the source). -/
theorem getDistanceRangePercentageOpt_self_eq_none (startDist distance : ℚ) :
    getDistanceRangePercentageOpt startDist startDist distance = none := by
  unfold getDistanceRangePercentageOpt divOpt
  simp

/-- After `n` ticks at a fixed `animationRatio`, each phase accumulator has
advanced by `n * animationPiStep`. -/
theorem orbitTick_iterate (animationRatio : ℝ) (n : ℕ) (st : OrbitState) :
    (orbitTick animationRatio)^[n] st =
      ⟨st.currentCosPi + n * animationPiStep animationRatio,
       st.currentSinPi + n * animationPiStep animationRatio,
       st.currentTiltPi + n * animationPiStep animationRatio⟩ := by
  induction n with
  | zero => simp
  | succ n ih =>
    rw [Function.iterate_succ_apply', ih]
    simp only [orbitTick, OrbitState.mk.injEq]
    refine ⟨?_, ?_, ?_⟩ <;> push_cast <;> ring

/-- C4: run at a fixed `animationRatio` (so every tick advances all three phase
accumulators by the same fixed angular step), the orbit stepper reproduces the
planet position after `2π / step` ticks: whenever `numTicks * step = 2π`, the
position written after `numTicks` further ticks equals the position determined
by the state before the first of those ticks. -/
theorem orbit_periodicity (animationRatio : ℝ) (numTicks : ℕ)
    (sunPos : ℝ × ℝ × ℝ) (distanceVectorLength : ℝ) (st : OrbitState)
    (h : (numTicks : ℝ) * animationPiStep animationRatio = 2 * Real.pi) :
    orbitWrittenPos sunPos distanceVectorLength
        ((orbitTick animationRatio)^[numTicks] st) =
      orbitWrittenPos sunPos distanceVectorLength st := by
  rw [orbitTick_iterate]
  unfold orbitWrittenPos
  have hc : ∀ x : ℝ, x + (numTicks : ℝ) * animationPiStep animationRatio =
      x + 2 * Real.pi := fun x => by rw [h]
  simp only [hc]
  rw [Real.cos_add_two_pi, Real.sin_add_two_pi, Real.sin_add_two_pi]

/-- Witness for C4: `animationRatio = 1` gives `step = 2π/60 * 0.001`, so
`60000` ticks advance the phases by exactly `2π`. -/
theorem orbit_periodicity_witness :
    (60000 : ℝ) * animationPiStep 1 = 2 * Real.pi ∧
      orbitWrittenPos (0, 0, 0) 1 ((orbitTick 1)^[60000] ⟨0, 0, 0⟩) =
        orbitWrittenPos (0, 0, 0) 1 ⟨0, 0, 0⟩ := by
  have hstep : (60000 : ℝ) * animationPiStep 1 = 2 * Real.pi := by
    simp only [animationPiStep, piStep, fullRotationsPerSecond]
    norm_num
    ring
  exact ⟨hstep, orbit_periodicity 1 60000 (0, 0, 0) 1 ⟨0, 0, 0⟩ hstep⟩

/-- C7 counterexample: with identical phase state and cached radius, a tick
that writes while the sun sits at `(100,0,0)` produces a different planet
position than one writing while the sun sits at the origin: the sun position
used each tick is the one read at tick time, not a value captured at
registration, so later changes to the sun position do affect the orbit centre. -/
theorem orbit_sun_position_counterexample :
    orbitWrittenPos (100, 0, 0) 1 (orbitTick 1 ⟨0, 0, 0⟩) ≠
      orbitWrittenPos (0, 0, 0) 1 (orbitTick 1 ⟨0, 0, 0⟩) := by
  intro h
  have h1 := congrArg Prod.fst h
  simp only [orbitWrittenPos] at h1
  linarith

/-- C7 (amended): the orbit callback captures the orbit radius
(`distanceVectorLength`) and initial phases at registration time, but reads the
sun position at tick time: the written position shifts componentwise by exactly
any change in the sun position, so later changes to the sun mesh's position do
move the computed orbit centre. -/
theorem orbitWrittenPos_tracks_current_sun (sunPos sunPos' : ℝ × ℝ × ℝ)
    (distanceVectorLength : ℝ) (st : OrbitState) :
    orbitWrittenPos sunPos' distanceVectorLength st =
      ((orbitWrittenPos sunPos distanceVectorLength st).1 + (sunPos'.1 - sunPos.1),
       (orbitWrittenPos sunPos distanceVectorLength st).2.1 + (sunPos'.2.1 - sunPos.2.1),
       (orbitWrittenPos sunPos distanceVectorLength st).2.2 + (sunPos'.2.2 - sunPos.2.2)) := by
  simp only [orbitWrittenPos]
  refine Prod.ext ?_ (Prod.ext ?_ ?_) <;> simp

/-- A pointer-up confirms a mesh only when it is the stored `bodyMesh`. -/
theorem onPointerUp_confirmed_imp_bodyMesh (st : RendererState) (inp : UpInput) (u : ℕ)
    (hconf : (onPointerUp st inp).2.confirmedMesh = some u) :
    st.bodyMesh = some u := by
  unfold onPointerUp at hconf
  cases hres : upResolve inp with
  | none => rw [hres] at hconf; simp [noUpEffects] at hconf
  | some mesh =>
    rw [hres] at hconf
    by_cases hb : st.bodyMesh = some mesh
    · by_cases hf : st.currentlyFocusedPlanet = correspondingSolarBody st.solarBodies mesh
      · simp [hb, hf, noUpEffects] at hconf
        rw [hb]
        simp [hconf]
      · simp [hb, hf, noUpEffects] at hconf
        rw [hb]
        simp [hconf]
    · simp [hb, noUpEffects] at hconf

/-- With no stored `bodyMesh`, a pointer-up has no effect. -/
theorem onPointerUp_bodyMesh_none (st : RendererState) (inp : UpInput)
    (h : st.bodyMesh = none) : (onPointerUp st inp).2 = noUpEffects := by
  unfold onPointerUp
  cases hres : upResolve inp with
  | none => simp
  | some mesh => simp [h]

/-- Moves while the pointer is down clear `bodyMesh` and change nothing else. -/
theorem runPointer_replicate_move (k : ℕ) (st : RendererState)
    (hpd : st.pointerDown = true) :
    runPointer st (List.replicate k .move) =
      if k = 0 then st else { st with bodyMesh := none } := by
  induction k generalizing st with
  | zero => simp [runPointer]
  | succ k ih =>
    rw [List.replicate_succ]
    have hmove : (pointerStep st .move).1 = { st with bodyMesh := none } := by
      simp [pointerStep, onPointerMove, hpd]
    show runPointer (pointerStep st PointerEvent.move).1 (List.replicate k PointerEvent.move) = _
    rw [hmove, ih { st with bodyMesh := none } hpd]
    cases k <;> simp

/-- C5 (amended): within one interaction whose pointer-down resolves a mesh
`m`, followed by `k` pointer-moves and then a pointer-up: any mesh the up
confirms (a prerequisite for a camera-focus transition) is `m` itself, and if
at least one move occurred while the pointer was down, the pending focus
change is cancelled and the up has no effect at all.  (The original,
unconditional claim fails because a pointer-down that resolves no mesh leaves
the previously stored mesh in place.) -/
theorem jumpFocus_confirm_only_down_mesh (st : RendererState)
    (pickedMesh : Option ℕ) (hit : Bool) (fallbackPick : Option ℕ)
    (m : ℕ) (k : ℕ) (inp : UpInput)
    (hres : resolvePick pickedMesh hit fallbackPick = some m) :
    (∀ u, ((onPointerUp (runPointer (onPointerDown st pickedMesh hit fallbackPick)
        (List.replicate k .move)) inp).2.confirmedMesh = some u) → u = m) ∧
    (1 ≤ k →
      (onPointerUp (runPointer (onPointerDown st pickedMesh hit fallbackPick)
        (List.replicate k .move)) inp).2 = noUpEffects) := by
  have h1 : (onPointerDown st pickedMesh hit fallbackPick).pointerDown = true ∧
      (onPointerDown st pickedMesh hit fallbackPick).bodyMesh = some m := by
    simp [onPointerDown, hres]
  have h2 := runPointer_replicate_move k _ h1.1
  constructor
  · intro u hu
    rcases Nat.eq_zero_or_pos k with hk | hk
    · subst hk
      rw [h2, if_pos rfl] at hu
      have hb := onPointerUp_confirmed_imp_bodyMesh _ inp u hu
      rw [h1.2] at hb
      exact (Option.some.injEq _ _ ▸ hb).symm
    · rw [h2, if_neg (Nat.pos_iff_ne_zero.mp hk)] at hu
      have hb := onPointerUp_confirmed_imp_bodyMesh _ inp u hu
      simp at hb
  · intro hk
    rw [h2, if_neg (by omega)]
    exact onPointerUp_bodyMesh_none _ inp rfl

/-- Witness for the amended C5: a concrete interaction on the initial state
(down on mesh 2, one move, up on mesh 2) produces no effect. -/
theorem jumpFocus_confirm_only_down_mesh_witness :
    resolvePick (some 2) true none = some 2 ∧
      (onPointerUp (runPointer (onPointerDown initRendererState (some 2) true none)
          (List.replicate 1 .move))
        ⟨some (some 2, true), none, true, true, true⟩).2 = noUpEffects :=
  ⟨by decide,
    (jumpFocus_confirm_only_down_mesh initRendererState (some 2) true none 2 1
      ⟨some (some 2, true), none, true, true, true⟩ (by decide)).2 (by decide)⟩

/-- C5 counterexample: from the post-`initScene` state, the event sequence
down(mesh 2), up(resolving nothing), down(resolving nothing), up(mesh 2)
triggers a full camera-focus transition on the final pointer-up even though
the pointer-down of that interaction resolved no mesh: a non-resolving down
leaves the previously stored `bodyMesh` in place, so the confirmed mesh is not
the mesh resolved at that pointer-down. -/
theorem jumpFocus_counterexample :
    resolvePick none true none = none ∧
      (onPointerUp
          (runPointer initRendererState
            [.down (some 2) true none,
             .up ⟨some (none, true), none, true, true, true⟩,
             .down none true none])
          ⟨some (some 2, true), none, true, true, true⟩).2 =
        { confirmedMesh := some 2, zoomAnim := false, cameraMoveAnims := 4,
          focusChanged := true, pivotSet := true, exploreCamMoved := true } := by
  decide

/-- C9 counterexample: in galaxy-scaling mode (the scaling check before the
zoom fails), a pointer-up that confirms the mesh of the body already held in
`currentlyFocusedPlanet` still starts the `cameraZoomToLocalSystem` radius
animation before returning, so the handler does not return without starting
any radius animation. -/
theorem alreadyFocused_counterexample :
    (onPointerUp { initRendererState with bodyMesh := some 1 }
        ⟨some (some 1, true), none, false, false, true⟩).2 =
      { noUpEffects with confirmedMesh := some 1, zoomAnim := true } := by
  decide

/-- C9 (amended): outside galaxy-scaling mode (the scaling check before the
optional zoom passes), a pointer-up confirming the mesh of the solar body that
is already `currentlyFocusedPlanet` is a no-op: no zoom and no camera-move
animation starts, the focus is unchanged, the pivot point is not set, the
explore camera is untouched, and the only state change is clearing
`pointerDown`. -/
theorem alreadyFocused_noop (st : RendererState) (inp : UpInput) (mesh : ℕ)
    (hres : upResolve inp = some mesh)
    (hbody : st.bodyMesh = some mesh)
    (hfoc : st.currentlyFocusedPlanet = correspondingSolarBody st.solarBodies mesh)
    (hscale : inp.scalingIsOneAtZoomCheck = true) :
    onPointerUp st inp =
      ({ st with pointerDown := false },
       { noUpEffects with confirmedMesh := some mesh }) := by
  unfold onPointerUp
  rw [hres]
  simp [hbody, ← hfoc, hscale, noUpEffects]

/-- Witness for the amended C9: clicking the already-focused planet (mesh 1)
outside galaxy mode changes nothing but `pointerDown`. -/
theorem alreadyFocused_noop_witness :
    onPointerUp { initRendererState with bodyMesh := some 1 }
        ⟨some (some 1, true), none, true, true, true⟩ =
      ({ { initRendererState with bodyMesh := some 1 } with pointerDown := false },
       { noUpEffects with confirmedMesh := some 1 }) :=
  alreadyFocused_noop { initRendererState with bodyMesh := some 1 }
    ⟨some (some 1, true), none, true, true, true⟩ 1
    (by decide) (by decide) (by decide) (by decide)

/-- C10: both `setPivotPoint` call sites are guarded by the unit-scaling
check: the focus-follow tick callback sets the pivot only when the scaling
equalled `Vector3.One()` within epsilon 0.01 at that tick, and the pointer-up
handler sets it only when the check at its pivot guard passed. -/
theorem pivot_only_at_unit_scaling :
    (∀ focus scalingIsOne,
        focusFollowTickPivot focus scalingIsOne = true → scalingIsOne = true) ∧
    (∀ st inp, (onPointerUp st inp).2.pivotSet = true →
        inp.scalingIsOneAtPivotCheck = true) := by
  constructor
  · intro focus scalingIsOne h
    cases focus <;> cases scalingIsOne <;> simp_all [focusFollowTickPivot]
  · intro st inp h
    unfold onPointerUp at h
    cases hres : upResolve inp with
    | none => rw [hres] at h; simp [noUpEffects] at h
    | some mesh =>
      rw [hres] at h
      by_cases hb : st.bodyMesh = some mesh
      · by_cases hf : st.currentlyFocusedPlanet = correspondingSolarBody st.solarBodies mesh
        · simp [hb, hf, noUpEffects] at h
        · simp [hb, hf, noUpEffects] at h
          exact h
      · simp [hb, noUpEffects] at h

/-- Witness for C10: a concrete pointer-up that does set the pivot had its
pivot-guard scaling check pass. -/
theorem pivot_only_at_unit_scaling_witness :
    (onPointerUp { initRendererState with bodyMesh := some 2 }
        ⟨some (some 2, true), none, true, true, true⟩).2.pivotSet = true ∧
      (⟨some (some 2, true), none, true, true, true⟩ : UpInput).scalingIsOneAtPivotCheck = true :=
  ⟨by decide,
    pivot_only_at_unit_scaling.2 { initRendererState with bodyMesh := some 2 }
      ⟨some (some 2, true), none, true, true, true⟩ (by decide)⟩

/-- Unrolling the `forEach` fold of the render loop into a `map`. -/
theorem renderLoop_foldl_invocations (cbs : List ℕ) (d r : ℚ) (acc : List FrameAction) :
    cbs.foldl (fun trace cb => trace ++ [FrameAction.invoke cb d r]) acc =
      acc ++ cbs.map (fun cb => FrameAction.invoke cb d r) := by
  induction cbs generalizing acc with
  | nil => simp
  | cons c cs ih => simp [List.foldl_cons, ih]

/-- C6: each render-loop iteration invokes every callback currently in
`onTickCallbacks` exactly once, synchronously, in registration (array) order,
all with the same `delta` and `animationRatio` sampled at the start of the
iteration, and renders the scene exactly once, after the last callback. -/
theorem renderLoop_frame_contract (onTickCallbacks : List ℕ)
    (getDeltaTime getAnimationRatio : ℚ) :
    renderLoopFrame onTickCallbacks getDeltaTime getAnimationRatio =
      (onTickCallbacks.map fun cb =>
        FrameAction.invoke cb getDeltaTime getAnimationRatio) ++ [FrameAction.render] ∧
    (∀ cb, (renderLoopFrame onTickCallbacks getDeltaTime getAnimationRatio).count
        (FrameAction.invoke cb getDeltaTime getAnimationRatio) =
          onTickCallbacks.count cb) ∧
    (renderLoopFrame onTickCallbacks getDeltaTime getAnimationRatio).getLast? =
      some FrameAction.render ∧
    (∀ i, (hi : i < onTickCallbacks.length) →
      (renderLoopFrame onTickCallbacks getDeltaTime getAnimationRatio)[i]? =
        some (FrameAction.invoke onTickCallbacks[i] getDeltaTime getAnimationRatio)) := by
  have hmap : renderLoopFrame onTickCallbacks getDeltaTime getAnimationRatio =
      (onTickCallbacks.map fun cb =>
        FrameAction.invoke cb getDeltaTime getAnimationRatio) ++ [FrameAction.render] := by
    simp only [renderLoopFrame]
    rw [renderLoop_foldl_invocations]
    simp
  refine ⟨hmap, ?_, ?_, ?_⟩
  · intro cb
    rw [hmap, List.count_append]
    have h2 := List.count_map_of_injective onTickCallbacks
      (fun c : ℕ => FrameAction.invoke c getDeltaTime getAnimationRatio)
      (fun a b hab => by simpa using hab) cb
    simpa using h2
  · rw [hmap]
    simp
  · intro i hi
    rw [hmap, List.getElem?_append_left (by simpa using hi), List.getElem?_map]
    simp [List.getElem?_eq_getElem hi]

/-- Witness for C6 on a concrete two-callback list: the first trace entry is
the first registered callback invoked with the sampled numbers. -/
theorem renderLoop_frame_contract_witness :
    (renderLoopFrame [7, 8] 1 2)[0]? = some (FrameAction.invoke 7 1 2) :=
  (renderLoop_frame_contract [7, 8] 1 2).2.2.2 0 (by decide)

/-- The pointer-up handler never touches the `solarBodies` list. -/
theorem onPointerUp_solarBodies (st : RendererState) (inp : UpInput) :
    (onPointerUp st inp).1.solarBodies = st.solarBodies := by
  unfold onPointerUp
  cases hres : upResolve inp with
  | none => rfl
  | some mesh =>
    by_cases hb : st.bodyMesh = some mesh
    · by_cases hf : st.currentlyFocusedPlanet = correspondingSolarBody st.solarBodies mesh
      · simp [hb, hf]
      · simp [hb, hf]
    · simp [hb]

/-- No single pointer event changes `solarBodies`. -/
theorem pointerStep_solarBodies (st : RendererState) (e : PointerEvent) :
    (pointerStep st e).1.solarBodies = st.solarBodies := by
  cases e with
  | down pickedMesh hit fallbackPick =>
    simp only [pointerStep]
    unfold onPointerDown
    cases resolvePick pickedMesh hit fallbackPick <;> rfl
  | move =>
    simp only [pointerStep]
    unfold onPointerMove
    by_cases hpd : st.pointerDown <;> simp [hpd]
  | up inp => exact onPointerUp_solarBodies st inp

/-- C8: `solarBodies` is populated only by `initPlanets` — six entries pushed
in config order, each with its fixed mesh identity, type tag and friendly
name — and afterwards no pointer handler or pointer-event sequence adds,
removes, reorders or rewrites entries (the modelled tick callbacks and
optimization passes act only on mesh transforms and material numbers and
have no access to the list at all). -/
theorem solarBodies_structurally_fixed :
    initSolarBodies =
      [{ mesh := 0, type := .star, name := "Sun" },
       { mesh := 1, type := .planet, name := "Penuaturn" },
       { mesh := 2, type := .planet, name := "Unradus" },
       { mesh := 3, type := .planet, name := "Lyke GS" },
       { mesh := 4, type := .planet, name := "Vore 0MI" },
       { mesh := 5, type := .planet, name := "Stan" }] ∧
    (∀ st e, (pointerStep st e).1.solarBodies = st.solarBodies) ∧
    (∀ st es, (runPointer st es).solarBodies = st.solarBodies) := by
  refine ⟨rfl, pointerStep_solarBodies, ?_⟩
  intro st es
  induction es generalizing st with
  | nil => rfl
  | cons e es ih =>
    show (runPointer (pointerStep st e).1 es).solarBodies = st.solarBodies
    rw [ih (pointerStep st e).1, pointerStep_solarBodies]

end Galaxy
